import Mathlib

/-!
Shallow embedding of the plugin resolution engine of `datasets/dataset_plugin.py`
(zillow/datasets).  The registry state, the registration decorator and the
type-keyed plugin factory are translated from the source; the `Context` and
`Mode` flag enumerations, the `is_upper_pascal_case` helper and the key-set
resolution engine are not under `src/` and are modelled from the spec where
needed (each such definition says so in its doc comment).
-/

namespace Datasets

/-- Modelled from the spec: `datasets/context.py` is not under `src/`.  A bitset
enumeration of execution contexts with members BATCH, ONLINE, STREAMING, combined
by bitwise OR. -/
structure Context where
  val : Nat
deriving DecidableEq, Repr

def Context.BATCH : Context := ⟨1⟩

def Context.ONLINE : Context := ⟨2⟩

def Context.STREAMING : Context := ⟨4⟩

/-- Bitwise OR of two context bitsets. -/
def Context.union (a b : Context) : Context := ⟨a.val ||| b.val⟩

/-- Compatibility test between two context bitsets: bitwise AND is nonzero. -/
def Context.overlaps (a b : Context) : Bool := (a.val &&& b.val) != 0

/-- Modelled from the spec: Python `Context[name]` member lookup by name; unknown
names are rejected (the spec calls this failure `ConfigError`). -/
def Context.fromName (s : String) : Option Context :=
  if s = "BATCH" then some Context.BATCH
  else if s = "ONLINE" then some Context.ONLINE
  else if s = "STREAMING" then some Context.STREAMING
  else none

/-- Modelled from the spec: `datasets/mode.py` is not under `src/`.  Access-mode
bit flags READ=1, WRITE=2, READ_WRITE=3. -/
structure Mode where
  val : Nat
deriving DecidableEq, Repr

def Mode.READ : Mode := ⟨1⟩

def Mode.WRITE : Mode := ⟨2⟩

def Mode.READ_WRITE : Mode := ⟨3⟩

/-- Modelled from the spec: Python `Mode[name]` member lookup by name; unknown
names are rejected (the spec calls this failure `ConfigError`). -/
def Mode.fromName (s : String) : Option Mode :=
  if s = "READ" then some Mode.READ
  else if s = "WRITE" then some Mode.WRITE
  else if s = "READ_WRITE" then some Mode.READ_WRITE
  else none

/-- An opaque plugin class (factory).  The engine never inspects it; identity is
all that matters. -/
structure Plugin where
  id : Nat
deriving DecidableEq, Repr, Inhabited

/-- An opaque `StorageOptions` subclass (a Python class object). -/
structure OptionsClass where
  id : Nat
deriving DecidableEq, Repr

/-- A `StorageOptions` instance: its concrete class plus its dataclass field
values.  Python dataclass equality compares class and fields, which the derived
equality mirrors. -/
structure OptionsInstance where
  cls : OptionsClass
  fieldValues : List (String × String)
deriving DecidableEq, Repr

/-- A value usable as a key of the `DatasetPlugin._plugins` dict: registration
stores whatever Python value was passed as `options`, either a class object or
an instance. -/
inductive PKey where
  | cls (c : OptionsClass)
  | inst (o : OptionsInstance)
deriving DecidableEq, Repr

/-- The `DatasetPlugin._plugins` dict, keyed by the registered options value. -/
abbrev PluginMap := List (PKey × Plugin)

/-- The `default_context_plugins` dict, keyed by context. -/
abbrev DefaultMap := List (Context × Plugin)

def lookupP : PluginMap → PKey → Option Plugin
  | [], _ => none
  | (k, v) :: rest, key => if k = key then some v else lookupP rest key

def lookupD : DefaultMap → Context → Option Plugin
  | [], _ => none
  | (k, v) :: rest, key => if k = key then some v else lookupD rest key

/-- Python dict assignment `d[k] = v`: replace the binding when present,
otherwise append. -/
def updateP : PluginMap → PKey → Plugin → PluginMap
  | [], k, v => [(k, v)]
  | (k', v') :: rest, k, v =>
    if k' = k then (k, v) :: rest else (k', v') :: updateP rest k v

def updateD : DefaultMap → Context → Plugin → DefaultMap
  | [], k, v => [(k, v)]
  | (k', v') :: rest, k, v =>
    if k' = k then (k, v) :: rest else (k', v') :: updateD rest k v

/-- Both registry maps: `DatasetPlugin._plugins` and `default_context_plugins`. -/
structure RegState where
  plugins : PluginMap
  defaults : DefaultMap
deriving DecidableEq, Repr

/-- Kinds of errors, following the Python exception class raised by the source
(`ValueError`, `KeyError`) and, for behavior modelled from the spec, the spec's
own error taxonomy (`ConfigError`, `PluginNotFoundError`). -/
inductive ErrKind where
  | valueError
  | keyError
  | configError
  | pluginNotFoundError
deriving DecidableEq, Repr

/-- The errors raised by the translated code, with the data each message
carries.  `valueError...` and `keyError...` constructors mirror `raise`
statements and dict-lookup failures of `dataset_plugin.py`; the `configError...`
constructors model the spec's `ConfigError` for the flag-name lookups whose
source is not under `src/`; `pluginNotFound` is the spec-modelled key-set
engine's failure. -/
inductive PyError where
  | valueErrorContextNone
  | valueErrorContextNotContext (described : String)
  | valueErrorAlreadyRegisteredDefault (context : Context)
  | valueErrorAlreadyRegisteredOptions (key : PKey)
  | valueErrorAlreadyRegisteredOptionsPlugin (key : PKey)
  | valueErrorBadName (name : String)
  | valueErrorTypeNotRegistered (optionsType : OptionsClass) (registryKeys : List PKey)
  | valueErrorContextNotInOptionsDict (context : Context) (dictKeys : List Context)
  | keyErrorDefaultContext (context : Context)
  | keyErrorPluginsKey (key : PKey)
  | configErrorUnknownContextName (name : String)
  | configErrorUnknownModeName (name : String)
  | pluginNotFound (argKeys : List String) (context : Context)
deriving DecidableEq, Repr

/-- The Python exception class (or spec error kind) of each error. -/
def PyError.kind : PyError → ErrKind
  | .valueErrorContextNone => .valueError
  | .valueErrorContextNotContext _ => .valueError
  | .valueErrorAlreadyRegisteredDefault _ => .valueError
  | .valueErrorAlreadyRegisteredOptions _ => .valueError
  | .valueErrorAlreadyRegisteredOptionsPlugin _ => .valueError
  | .valueErrorBadName _ => .valueError
  | .valueErrorTypeNotRegistered _ _ => .valueError
  | .valueErrorContextNotInOptionsDict _ _ => .valueError
  | .keyErrorDefaultContext _ => .keyError
  | .keyErrorPluginsKey _ => .keyError
  | .configErrorUnknownContextName _ => .configError
  | .configErrorUnknownModeName _ => .configError
  | .pluginNotFound _ _ => .pluginNotFoundError

/-! ### Registration: `DatasetPlugin.register` (dataset_plugin.py lines 104-128) -/

/-- The Python value passed as the `context` argument of `register`: `None`, a
`Context` flag, or any other value (kept as an opaque description), so that the
`isinstance(context, Context)` guard can be expressed. -/
inductive RegContextArg where
  | none
  | context (c : Context)
  | other (described : String)
deriving DecidableEq, Repr

/-- `inner_wrapper` (lines 114-126): runs against the mutable registry state and
returns the state as mutated so far together with the raised error, if any.
The second `if options in cls._plugins and wrapped_class != cls._plugins[options]`
guard of the source is translated verbatim (it is unreachable, since the guard
just above already raised whenever the key is present). -/
def innerWrapper (context : Context) (options : Option PKey)
    (asDefaultContextPlugin : Bool) (wrappedClass : Plugin) (st : RegState) :
    RegState × Option PyError :=
  let r1 : RegState × Option PyError :=
    if asDefaultContextPlugin then
      if (lookupD st.defaults context).isSome then
        (st, some (.valueErrorAlreadyRegisteredDefault context))
      else ({ st with defaults := updateD st.defaults context wrappedClass }, none)
    else (st, none)
  match r1 with
  | (st1, some e) => (st1, some e)
  | (st1, none) =>
    match options with
    | none => (st1, none)
    | some key =>
      if (lookupP st1.plugins key).isSome then
        (st1, some (.valueErrorAlreadyRegisteredOptions key))
      else if (match lookupP st1.plugins key with
               | some p => wrappedClass != p
               | none => false) then
        (st1, some (.valueErrorAlreadyRegisteredOptionsPlugin key))
      else
        ({ st1 with plugins := updateP st1.plugins key wrappedClass }, none)

/-- `DatasetPlugin.register` applied through to the wrapped class: the outer
call validates `context` (lines 108-112) before `inner_wrapper` ever touches
the registry. -/
def registerCall (context : RegContextArg) (options : Option PKey)
    (asDefaultContextPlugin : Bool) (wrappedClass : Plugin) (st : RegState) :
    RegState × Option PyError :=
  match context with
  | .none => (st, some .valueErrorContextNone)
  | .other d => (st, some (.valueErrorContextNotContext d))
  | .context c => innerWrapper c options asDefaultContextPlugin wrappedClass st

/-! ### Context selection: `DatasetPlugin._get_context` (lines 95-100) -/

/-- The Python value passed as the `context` argument of a resolution: a
`Context` flag or its string name. -/
inductive CtxArg where
  | ctx (c : Context)
  | str (s : String)
deriving DecidableEq, Repr

/-- Python truthiness of the optional context argument (`if context:`): `None`
is falsy, a zero flag value is falsy, the empty string is falsy. -/
def ctxTruthy : Option CtxArg → Bool
  | Option.none => false
  | some (.ctx c) => c.val != 0
  | some (.str s) => !s.isEmpty

/-- `DatasetPlugin._get_context`: the explicit argument when truthy (parsed via
`Context[...]` when it is a string), else the executor's current context. -/
def getContext (context : Option CtxArg) (executorContext : Context) :
    Except PyError Context :=
  if ctxTruthy context then
    match context with
    | some (.ctx c) => .ok c
    | some (.str s) =>
      match Context.fromName s with
      | some c => .ok c
      | Option.none => .error (.configErrorUnknownContextName s)
    | Option.none => .ok executorContext
  else .ok executorContext

/-! ### Resolution: `_default_plugin_factory` (lines 157-176) -/

/-- The `options` argument of a resolution call: a bare `StorageOptions`
instance, or a dict keyed by context (whose values are whatever Python values
the caller put there, hence `PKey`). -/
inductive OptionsArg where
  | inst (o : OptionsInstance)
  | dict (d : List (Context × PKey))
deriving DecidableEq, Repr

def lookupCtxDict : List (Context × PKey) → Context → Option PKey
  | [], _ => Option.none
  | (k, v) :: rest, key => if k = key then some v else lookupCtxDict rest key

/-- `_default_plugin_factory`: resolves the context, then dispatches on the
shape of `options`.  The fall-through for an `options` value outside the
annotated union (which returns Python `None`) cannot arise for `OptionsArg`. -/
def defaultPluginFactory (registeredPlugins : PluginMap) (defaults : DefaultMap)
    (context : Option CtxArg) (executorContext : Context)
    (options : Option OptionsArg) : Except PyError (Plugin × Option PKey) :=
  match getContext context executorContext with
  | .error e => .error e
  | .ok contextLookup =>
    match options with
    | Option.none =>
      match lookupD defaults contextLookup with
      | some plugin => .ok (plugin, Option.none)
      | Option.none => .error (.keyErrorDefaultContext contextLookup)
    | some (.inst o) =>
      match lookupP registeredPlugins (.cls o.cls) with
      | Option.none =>
        .error (.valueErrorTypeNotRegistered o.cls (registeredPlugins.map Prod.fst))
      | some plugin => .ok (plugin, some (.inst o))
    | some (.dict d) =>
      match lookupCtxDict d contextLookup with
      | Option.none =>
        .error (.valueErrorContextNotInOptionsDict contextLookup (d.map Prod.fst))
      | some v =>
        match lookupP registeredPlugins v with
        | some plugin => .ok (plugin, some v)
        | Option.none => .error (.keyErrorPluginsKey v)

/-! ### Name validation and construction (lines 34-93, 144-154) -/

/-- Modelled from the spec: `is_upper_pascal_case` of `datasets/utils/case_utils.py`
is not under `src/`.  A name is Upper Pascal Case when it is nonempty, starts
with an uppercase ASCII letter, and contains only letters and digits. -/
def isUpperPascalCase (s : String) : Bool :=
  match s.data with
  | [] => false
  | c :: rest => c.isUpper && rest.all (fun ch => ch.isAlphanum)

/-- The `mode` argument: a `Mode` flag or its string name
(`mode if isinstance(mode, Mode) else Mode[mode]`). -/
inductive ModeArg where
  | mode (m : Mode)
  | str (s : String)
deriving DecidableEq, Repr

/-- The state built by `DatasetPlugin.__init__` (lines 34-62): name validation
first, then field assignment with `Mode[mode]` parsing for string modes. -/
structure DatasetInstance where
  name : String
  key : Option String
  mode : Mode
  options : Option PKey
deriving DecidableEq, Repr

/-- `DatasetPlugin.__init__`: `dataset_name_validator(name)` runs before any
field assignment; a string `mode` is parsed with `Mode[mode]`. -/
def datasetInit (name : String) (logicalKey : Option String) (mode : ModeArg)
    (options : Option PKey) : Except PyError DatasetInstance :=
  if !isUpperPascalCase name then .error (.valueErrorBadName name)
  else
    match mode with
    | .mode m => .ok { name := name, key := logicalKey, mode := m, options := options }
    | .str s =>
      match Mode.fromName s with
      | some m => .ok { name := name, key := logicalKey, mode := m, options := options }
      | Option.none => .error (.configErrorUnknownModeName s)

/-- The constructor invocation `plugin(name=..., mode=..., options=...)` that
`DatasetPlugin.Dataset` performs on the winning plugin class (line 83): the
chosen class together with the arguments passed through to it. -/
structure PluginCall where
  plugin : Plugin
  name : Option String
  logicalKey : Option String
  mode : ModeArg
  options : Option PKey
deriving DecidableEq, Repr

/-- Python truthiness of the optional `name` (`if name:`). -/
def nameTruthy : Option String → Bool
  | Option.none => false
  | some s => !s.isEmpty

/-- `DatasetPlugin.Dataset` (lines 64-93): validate the name only when truthy,
run the plugin factory, and invoke the winning plugin class with the arguments
passed through (options replaced by the factory's second component). -/
def DatasetFactory (plugins : PluginMap) (defaults : DefaultMap)
    (executorContext : Context) (name : Option String) (logicalKey : Option String)
    (mode : ModeArg) (options : Option OptionsArg) (context : Option CtxArg) :
    Except PyError PluginCall :=
  let check : Except PyError Unit :=
    if nameTruthy name then
      match name with
      | some s => if isUpperPascalCase s then .ok () else .error (.valueErrorBadName s)
      | Option.none => .ok ()
    else .ok ()
  match check with
  | .error e => .error e
  | .ok _ =>
    match defaultPluginFactory plugins defaults context executorContext options with
    | .error e => .error e
    | .ok (plugin, opts) =>
      .ok { plugin := plugin, name := name, logicalKey := logicalKey,
            mode := mode, options := opts }

/-! ### Key-set resolution engine (spec section 4.4) -/

/-- Modelled from the spec: the key-set resolution engine (`from_keys` /
`register_plugin` in the repository's tests) is not under `src/`; only its
tests are.  A registry entry binds a context set and a constructor key set
(a duplicate-free list of argument names) to a factory. -/
structure KRegistryEntry where
  contextSet : Context
  keySet : List String
  factory : Plugin
deriving DecidableEq, Repr

/-- Spec step 5a eligibility: `keySet` is a subset of the request's keys. -/
def keySubset (keySet argKeys : List String) : Bool :=
  keySet.all (fun k => argKeys.contains k)

/-- Spec step 5c: `score := |keySet ∩ argKeys|` (for a duplicate-free
`keySet`, the length of its restriction to `argKeys`). -/
def interScore (keySet argKeys : List String) : Nat :=
  (keySet.filter (fun k => argKeys.contains k)).length

/-- Modelled from the spec: `candidatesFor(contextSet)` returns every entry
whose registered context overlaps the queried context. -/
def candidatesFor (reg : List KRegistryEntry) (ctx : Context) : List KRegistryEntry :=
  reg.filter (fun e => Context.overlaps e.contextSet ctx)

/-- Modelled from the spec: one iteration of step 5 over the running state
`(best, bestScore, defaultFactory)`: skip non-subsets, record the universal
default key set `{"name"}` out of band, otherwise keep the factory on a
strictly greater score (first-strictly-greater-wins). -/
def resolveStep (argKeys : List String)
    (st : Option Plugin × Nat × Option Plugin) (e : KRegistryEntry) :
    Option Plugin × Nat × Option Plugin :=
  if !keySubset e.keySet argKeys then st
  else if e.keySet = ["name"] then (st.1, st.2.1, some e.factory)
  else
    let score := interScore e.keySet argKeys
    if score > st.2.1 then (some e.factory, score, st.2.2) else st

/-- Modelled from the spec: `resolve(args, explicitContext?)` of section 4.4,
steps 3-8, over an already-resolved context: fold the candidates, return the
best match, else the default, else fail with `PluginNotFoundError` reporting
the argument keys and the context. -/
def resolveFromKeys (reg : List KRegistryEntry) (ctx : Context)
    (argKeys : List String) : Except PyError Plugin :=
  let finalState := (candidatesFor reg ctx).foldl (resolveStep argKeys)
    (Option.none, 0, Option.none)
  match finalState.1 with
  | some f => .ok f
  | Option.none =>
    match finalState.2.2 with
    | some f => .ok f
    | Option.none => .error (.pluginNotFound argKeys ctx)

/-! ## Claims -/

/-- C2: the claim says re-registering the same `(context, options)` key with the
same factory succeeds as a no-op; the code raises at the failing input.  The
first registration of class 1 under options key 0 succeeds; the second,
identical registration (same key, same factory) raises the
`already registered` ValueError, because the `options in cls._plugins` guard
fires before the (unreachable) same-factory comparison. -/
theorem c2_same_factory_reregistration_raises :
    registerCall (.context Context.BATCH) (some (.cls ⟨0⟩)) false ⟨1⟩
        { plugins := [], defaults := [] }
      = ({ plugins := [(.cls ⟨0⟩, ⟨1⟩)], defaults := [] }, Option.none)
    ∧ registerCall (.context Context.BATCH) (some (.cls ⟨0⟩)) false ⟨1⟩
        { plugins := [(.cls ⟨0⟩, ⟨1⟩)], defaults := [] }
      = ({ plugins := [(.cls ⟨0⟩, ⟨1⟩)], defaults := [] },
         some (.valueErrorAlreadyRegisteredOptions (.cls ⟨0⟩))) :=
  ⟨rfl, rfl⟩

/-- C3 counterexample: the two no-match paths do not fail with one
`PluginNotFoundError` kind reporting the request and the resolved context.
With empty registries, resolution under BATCH with no options raises a
KeyError carrying only the context (no request), while resolution with an
unregistered options instance raises a ValueError carrying the options type
and the registry keys (no context); the two kinds differ. -/
theorem c3_counterexample :
    defaultPluginFactory [] [] (some (.ctx Context.BATCH)) Context.BATCH Option.none
      = .error (.keyErrorDefaultContext Context.BATCH)
    ∧ defaultPluginFactory [] [] (some (.ctx Context.BATCH)) Context.BATCH
        (some (.inst ⟨⟨3⟩, []⟩))
      = .error (.valueErrorTypeNotRegistered ⟨3⟩ [])
    ∧ (PyError.keyErrorDefaultContext Context.BATCH).kind
        ≠ (PyError.valueErrorTypeNotRegistered ⟨3⟩ []).kind :=
  ⟨rfl, rfl, by decide⟩

/-- C4 counterexample: a registration that both registers a default context
plugin and an options key, and then hits the conflict on the options key,
leaves the freshly inserted default-map entry behind: starting from a state
whose options map already binds key 0 and whose default map is empty, the
failing call ends with `default_context_plugins = [(BATCH, class 2)]`, not the
pre-call empty map. -/
theorem c4_counterexample :
    registerCall (.context Context.BATCH) (some (.cls ⟨0⟩)) true ⟨2⟩
        { plugins := [(.cls ⟨0⟩, ⟨1⟩)], defaults := [] }
      = ({ plugins := [(.cls ⟨0⟩, ⟨1⟩)], defaults := [(Context.BATCH, ⟨2⟩)] },
         some (.valueErrorAlreadyRegisteredOptions (.cls ⟨0⟩)))
    ∧ [(Context.BATCH, (⟨2⟩ : Plugin))] ≠ ([] : DefaultMap) :=
  ⟨rfl, by decide⟩

/-- C7 counterexample: the empty string is not the name of any Context flag,
yet resolution with `context=""` does not fail with a ConfigError: the
truthiness check `if context:` treats it as absent and silently falls back to
the executor's context. -/
theorem c7_counterexample :
    Context.fromName "" = Option.none
    ∧ getContext (some (.str "")) Context.BATCH = .ok Context.BATCH :=
  ⟨rfl, rfl⟩

/-- C8: a registration call whose context is None, or is not a Context flag
value, fails synchronously with the corresponding ConfigError-class ValueError
before any registry mutation: the returned state is exactly the input state. -/
theorem c8_register_precondition
    (options : Option PKey) (asDefault : Bool) (f : Plugin) (st : RegState)
    (d : String) :
    registerCall .none options asDefault f st = (st, some .valueErrorContextNone)
    ∧ registerCall (.other d) options asDefault f st
        = (st, some (.valueErrorContextNotContext d)) :=
  ⟨rfl, rfl⟩

/-- C1: type-keyed resolution, positive cases.  For every registry and context
`c` with a registered default plugin `p`, calling the factory with no options
selects `p` with options None; and for every call whose options instance's
class is registered to plugin `q`, the factory selects `q` and passes the
options value through unchanged to the constructed instance. -/
theorem c1_type_keyed_positive_resolution
    (P : PluginMap) (D : DefaultMap) (c ex : Context) (p q : Plugin)
    (o : OptionsInstance) (lk : Option String) (m : ModeArg)
    (hc : c.val ≠ 0) (hdef : lookupD D c = some p)
    (hopt : lookupP P (.cls o.cls) = some q) :
    DatasetFactory P D ex Option.none lk m Option.none (some (.ctx c))
      = .ok { plugin := p, name := Option.none, logicalKey := lk,
              mode := m, options := Option.none }
    ∧ DatasetFactory P D ex Option.none lk m (some (.inst o)) (some (.ctx c))
      = .ok { plugin := q, name := Option.none, logicalKey := lk,
              mode := m, options := some (.inst o) } := by
  have hgc : getContext (some (.ctx c)) ex = .ok c := by
    simp [getContext, ctxTruthy, hc]
  constructor
  · simp [DatasetFactory, nameTruthy, defaultPluginFactory, hgc, hdef]
  · simp [DatasetFactory, nameTruthy, defaultPluginFactory, hgc, hopt]

/-- C1 witness. -/
theorem c1_witness :
    (Context.BATCH.val ≠ 0)
    ∧ lookupD [(Context.BATCH, ⟨7⟩)] Context.BATCH = some ⟨7⟩
    ∧ lookupP [(.cls ⟨3⟩, ⟨9⟩)] (.cls ⟨3⟩) = some ⟨9⟩
    ∧ DatasetFactory [(.cls ⟨3⟩, ⟨9⟩)] [(Context.BATCH, ⟨7⟩)] Context.ONLINE
        Option.none Option.none (.mode Mode.READ) Option.none
        (some (.ctx Context.BATCH))
      = .ok { plugin := ⟨7⟩, name := Option.none, logicalKey := Option.none,
              mode := .mode Mode.READ, options := Option.none }
    ∧ DatasetFactory [(.cls ⟨3⟩, ⟨9⟩)] [(Context.BATCH, ⟨7⟩)] Context.ONLINE
        Option.none Option.none (.mode Mode.READ)
        (some (.inst ⟨⟨3⟩, []⟩)) (some (.ctx Context.BATCH))
      = .ok { plugin := ⟨9⟩, name := Option.none, logicalKey := Option.none,
              mode := .mode Mode.READ, options := some (.inst ⟨⟨3⟩, []⟩) } := by
  refine ⟨by decide, by decide, by decide, ?_⟩
  exact c1_type_keyed_positive_resolution _ _ _ _ _ _ ⟨⟨3⟩, []⟩ _ _
    (by decide) (by decide) (by decide)

/-- C3 amended: every no-match resolution fails and never silently defaults,
but with heterogeneous errors: a KeyError naming only the resolved context
when no options are supplied and no default plugin is registered for it, and
a ValueError naming the options type and the registry keys (not the context)
when the supplied options instance's type is unregistered. -/
theorem c3_no_match_errors
    (P : PluginMap) (D : DefaultMap) (c ex : Context) (o : OptionsInstance)
    (hc : c.val ≠ 0) :
    (lookupD D c = Option.none →
      defaultPluginFactory P D (some (.ctx c)) ex Option.none
        = .error (.keyErrorDefaultContext c))
    ∧ (lookupP P (.cls o.cls) = Option.none →
      defaultPluginFactory P D (some (.ctx c)) ex (some (.inst o))
        = .error (.valueErrorTypeNotRegistered o.cls (P.map Prod.fst))) := by
  have hgc : getContext (some (.ctx c)) ex = .ok c := by
    simp [getContext, ctxTruthy, hc]
  constructor
  · intro hdef
    simp [defaultPluginFactory, hgc, hdef]
  · intro hopt
    simp [defaultPluginFactory, hgc, hopt]

/-- C3 witness. -/
theorem c3_witness :
    (Context.BATCH.val ≠ 0)
    ∧ lookupD [] Context.BATCH = Option.none
    ∧ lookupP [] (.cls ⟨3⟩) = Option.none
    ∧ defaultPluginFactory [] [] (some (.ctx Context.BATCH)) Context.ONLINE
        Option.none = .error (.keyErrorDefaultContext Context.BATCH)
    ∧ defaultPluginFactory [] [] (some (.ctx Context.BATCH)) Context.ONLINE
        (some (.inst ⟨⟨3⟩, []⟩))
      = .error (.valueErrorTypeNotRegistered ⟨3⟩ []) := by
  have h := c3_no_match_errors [] [] Context.BATCH Context.ONLINE ⟨⟨3⟩, []⟩
    (by decide)
  exact ⟨by decide, by decide, by decide, h.1 rfl, h.2 rfl⟩

/-- C6: the context used by resolution is the explicitly supplied one when
present and the executor's current context otherwise; and supplying a valid
context name string selects exactly the same plugin as supplying the flag
value: the two factory calls are equal for every registry and options value. -/
theorem c6_context_selection
    (c ex : Context) (s : String) (P : PluginMap) (D : DefaultMap)
    (O : Option OptionsArg)
    (hc : c.val ≠ 0) (hs : Context.fromName s = some c) :
    getContext (some (.ctx c)) ex = .ok c
    ∧ getContext Option.none ex = .ok ex
    ∧ defaultPluginFactory P D (some (.str s)) ex O
        = defaultPluginFactory P D (some (.ctx c)) ex O := by
  have hgc : getContext (some (.ctx c)) ex = .ok c := by
    simp [getContext, ctxTruthy, hc]
  have hne : s ≠ "" := by
    intro h
    rw [h] at hs
    simp [Context.fromName] at hs
  have hgs : getContext (some (.str s)) ex = .ok c := by
    simp [getContext, ctxTruthy, String.isEmpty_iff, hne, hs]
  refine ⟨hgc, by simp [getContext, ctxTruthy], ?_⟩
  unfold defaultPluginFactory
  rw [hgc, hgs]

/-- C6 witness. -/
theorem c6_witness :
    (Context.STREAMING.val ≠ 0)
    ∧ Context.fromName "STREAMING" = some Context.STREAMING
    ∧ getContext (some (.ctx Context.STREAMING)) Context.BATCH
        = .ok Context.STREAMING
    ∧ getContext Option.none Context.BATCH = .ok Context.BATCH
    ∧ defaultPluginFactory [] [(Context.STREAMING, ⟨5⟩)]
        (some (.str "STREAMING")) Context.BATCH Option.none
      = defaultPluginFactory [] [(Context.STREAMING, ⟨5⟩)]
        (some (.ctx Context.STREAMING)) Context.BATCH Option.none := by
  have h := c6_context_selection Context.STREAMING Context.BATCH "STREAMING"
    [] [(Context.STREAMING, ⟨5⟩)] Option.none (by decide) (by decide)
  exact ⟨by decide, by decide, h.1, h.2.1, h.2.2⟩

theorem landSelf (n : Nat) : n &&& n = n := by
  apply Nat.eq_of_testBit_eq
  intro i
  rw [Nat.testBit_and]
  exact Bool.and_self _

/-- C4 amended: a failing registration call never inserts the conflicting key:
the options-keyed plugin map is always left in its pre-call state, and a call
that did not ask for default-context registration leaves the whole registry
unchanged.  (A call that registers a default and then conflicts on the options
key keeps the default-map insertion — see the counterexample.) -/
theorem c4_partial_atomicity
    (ctx : RegContextArg) (options : Option PKey) (asDefault : Bool)
    (f : Plugin) (st : RegState)
    (h : (registerCall ctx options asDefault f st).2.isSome = true) :
    (registerCall ctx options asDefault f st).1.plugins = st.plugins
    ∧ (asDefault = false → (registerCall ctx options asDefault f st).1 = st) := by
  cases ctx with
  | none => exact ⟨rfl, fun _ => rfl⟩
  | other d => exact ⟨rfl, fun _ => rfl⟩
  | context c =>
    simp only [registerCall] at h ⊢
    cases asDefault with
    | false =>
      cases options with
      | none => simp [innerWrapper] at h
      | some key =>
        by_cases hk : (lookupP st.plugins key).isSome
        · simp [innerWrapper, hk]
        · rw [Option.isSome_iff_exists] at hk
          push_neg at hk
          have hnone : lookupP st.plugins key = Option.none := by
            cases hl : lookupP st.plugins key with
            | none => rfl
            | some p => exact absurd hl (hk p)
          simp [innerWrapper, hnone] at h
    | true =>
      refine ⟨?_, by simp⟩
      by_cases hd : (lookupD st.defaults c).isSome
      · simp [innerWrapper, hd]
      · cases options with
        | none => simp [innerWrapper, hd] at h
        | some key =>
          by_cases hk : (lookupP st.plugins key).isSome
          · simp [innerWrapper, hd, hk]
          · rw [Option.isSome_iff_exists] at hk
            push_neg at hk
            have hnone : lookupP st.plugins key = Option.none := by
              cases hl : lookupP st.plugins key with
              | none => rfl
              | some p => exact absurd hl (hk p)
            simp [innerWrapper, hd, hnone] at h

/-- C4 witness. -/
theorem c4_witness :
    ((registerCall (.context Context.BATCH) (some (.cls ⟨0⟩)) false ⟨2⟩
        { plugins := [(.cls ⟨0⟩, ⟨1⟩)], defaults := [] }).2.isSome = true)
    ∧ (registerCall (.context Context.BATCH) (some (.cls ⟨0⟩)) false ⟨2⟩
        { plugins := [(.cls ⟨0⟩, ⟨1⟩)], defaults := [] }).1.plugins
        = [(.cls ⟨0⟩, ⟨1⟩)]
    ∧ (registerCall (.context Context.BATCH) (some (.cls ⟨0⟩)) false ⟨2⟩
        { plugins := [(.cls ⟨0⟩, ⟨1⟩)], defaults := [] }).1
        = { plugins := [(.cls ⟨0⟩, ⟨1⟩)], defaults := [] } := by
  have h := c4_partial_atomicity (.context Context.BATCH) (some (.cls ⟨0⟩))
    false ⟨2⟩ { plugins := [(.cls ⟨0⟩, ⟨1⟩)], defaults := [] } (by rfl)
  exact ⟨by rfl, h.1, h.2 rfl⟩

/-- C5: key-set best-match preference (spec-modelled engine).  For a registry
holding two eligible non-default key sets over the same context, in either
registration order, resolution selects the factory of the key set with the
strictly larger intersection score against the request's argument keys. -/
theorem c5_best_match_preference
    (ctx : Context) (k1 k2 : List String) (f1 f2 : Plugin) (argKeys : List String)
    (hctx : ctx.val ≠ 0)
    (h1 : keySubset k1 argKeys = true) (h2 : keySubset k2 argKeys = true)
    (hn1 : k1 ≠ ["name"]) (hn2 : k2 ≠ ["name"])
    (hscore : interScore k1 argKeys < interScore k2 argKeys) :
    resolveFromKeys [⟨ctx, k1, f1⟩, ⟨ctx, k2, f2⟩] ctx argKeys = .ok f2
    ∧ resolveFromKeys [⟨ctx, k2, f2⟩, ⟨ctx, k1, f1⟩] ctx argKeys = .ok f2 := by
  have hov : Context.overlaps ctx ctx = true := by
    simp [Context.overlaps, landSelf, hctx]
  have step2 : ∀ (b : Option Plugin) (n : Nat) (d : Option Plugin),
      n < interScore k2 argKeys →
      resolveStep argKeys (b, n, d) ⟨ctx, k2, f2⟩
        = (some f2, interScore k2 argKeys, d) := by
    intro b n d hn
    simp [resolveStep, h2, hn2, hn]
  have step1keep : resolveStep argKeys
      (some f2, interScore k2 argKeys, Option.none) ⟨ctx, k1, f1⟩
      = (some f2, interScore k2 argKeys, Option.none) := by
    have hnot : ¬ (interScore k2 argKeys < interScore k1 argKeys) := by omega
    simp [resolveStep, h1, hn1, hnot]
  constructor
  · unfold resolveFromKeys candidatesFor
    simp only [List.filter, hov, List.foldl]
    by_cases h0 : 0 < interScore k1 argKeys
    · rw [show resolveStep argKeys (Option.none, 0, Option.none) ⟨ctx, k1, f1⟩
          = (some f1, interScore k1 argKeys, Option.none) by
            simp [resolveStep, h1, hn1, h0]]
      rw [step2 _ _ _ hscore]
    · rw [show resolveStep argKeys (Option.none, 0, Option.none) ⟨ctx, k1, f1⟩
          = (Option.none, 0, Option.none) by
            simp [resolveStep, h1, hn1, h0]]
      rw [step2 _ _ _ (by omega)]
  · unfold resolveFromKeys candidatesFor
    simp only [List.filter, hov, List.foldl]
    rw [step2 _ _ _ (by omega), step1keep]

/-- C5 witness: the spec's own example, in both registration orders. -/
theorem c5_witness :
    (Context.BATCH.val ≠ 0)
    ∧ keySubset ["a"] ["a", "b", "c"] = true
    ∧ keySubset ["a", "b"] ["a", "b", "c"] = true
    ∧ interScore ["a"] ["a", "b", "c"] < interScore ["a", "b"] ["a", "b", "c"]
    ∧ resolveFromKeys [⟨Context.BATCH, ["a"], ⟨1⟩⟩, ⟨Context.BATCH, ["a", "b"], ⟨2⟩⟩]
        Context.BATCH ["a", "b", "c"] = .ok ⟨2⟩
    ∧ resolveFromKeys [⟨Context.BATCH, ["a", "b"], ⟨2⟩⟩, ⟨Context.BATCH, ["a"], ⟨1⟩⟩]
        Context.BATCH ["a", "b", "c"] = .ok ⟨2⟩ := by
  have h := c5_best_match_preference Context.BATCH ["a"] ["a", "b"] ⟨1⟩ ⟨2⟩
    ["a", "b", "c"] (by decide) (by decide) (by decide) (by decide) (by decide)
    (by decide)
  exact ⟨by decide, by decide, by decide, by decide, h.1, h.2⟩

/-- C7 amended: every non-empty string that is not the name of a Context flag
fails context resolution with the ConfigError-class lookup failure, and every
string that is not the name of a Mode flag fails dataset construction with the
corresponding ConfigError-class lookup failure; the empty string passed as a
context, however, is treated as absent (see the counterexample). -/
theorem c7_unknown_names
    (s t : String) (ex : Context) (goodName : String) (lk : Option String)
    (opts : Option PKey)
    (hs : Context.fromName s = Option.none) (hse : s ≠ "")
    (ht : Mode.fromName t = Option.none)
    (hname : isUpperPascalCase goodName = true) :
    getContext (some (.str s)) ex = .error (.configErrorUnknownContextName s)
    ∧ datasetInit goodName lk (.str t) opts
        = .error (.configErrorUnknownModeName t) := by
  constructor
  · simp [getContext, ctxTruthy, String.isEmpty_iff, hse, hs]
  · simp [datasetInit, hname, ht]

/-- C7 witness. -/
theorem c7_witness :
    Context.fromName "FOO" = Option.none
    ∧ ("FOO" : String) ≠ ""
    ∧ Mode.fromName "BAR" = Option.none
    ∧ isUpperPascalCase "Foo" = true
    ∧ getContext (some (.str "FOO")) Context.BATCH
        = .error (.configErrorUnknownContextName "FOO")
    ∧ datasetInit "Foo" Option.none (.str "BAR") Option.none
        = .error (.configErrorUnknownModeName "BAR") := by
  have h := c7_unknown_names "FOO" "BAR" Context.BATCH "Foo" Option.none
    Option.none (by decide) (by decide) (by decide) (by decide)
  exact ⟨by decide, by decide, by decide, by decide, h.1, h.2⟩

/-- C9: dataset name validation.  `DatasetPlugin.__init__` validates the name
before any other effect — an invalid name raises the ValueError for every mode
argument, including mode strings that would themselves fail to parse — while
the `Dataset` factory classmethod validates only a truthy name: with a None or
empty name it is exactly the factory pipeline (no validation error), and with
a non-empty invalid name it raises the ValueError before resolution. -/
theorem c9_name_validation
    (lk : Option String) (m : ModeArg) (opts : Option PKey)
    (P : PluginMap) (D : DefaultMap) (ex : Context) (O : Option OptionsArg)
    (C : Option CtxArg) (bad : String)
    (hbad : isUpperPascalCase bad = false) :
    datasetInit bad lk m opts = .error (.valueErrorBadName bad)
    ∧ DatasetFactory P D ex Option.none lk m O C
        = (defaultPluginFactory P D C ex O).map
            (fun r => { plugin := r.1, name := Option.none, logicalKey := lk,
                        mode := m, options := r.2 })
    ∧ DatasetFactory P D ex (some "") lk m O C
        = (defaultPluginFactory P D C ex O).map
            (fun r => { plugin := r.1, name := some "", logicalKey := lk,
                        mode := m, options := r.2 })
    ∧ (bad ≠ "" → DatasetFactory P D ex (some bad) lk m O C
        = .error (.valueErrorBadName bad)) := by
  refine ⟨by simp [datasetInit, hbad], ?_, ?_, ?_⟩
  · cases hfac : defaultPluginFactory P D C ex O with
    | error e => simp [DatasetFactory, nameTruthy, hfac, Except.map]
    | ok r => simp [DatasetFactory, nameTruthy, hfac, Except.map]
  · have he : ("" : String).isEmpty = true := rfl
    cases hfac : defaultPluginFactory P D C ex O with
    | error e => simp [DatasetFactory, nameTruthy, hfac, Except.map, he]
    | ok r => simp [DatasetFactory, nameTruthy, hfac, Except.map, he]
  · intro hne
    have hb : bad.isEmpty = false := by
      cases hbe : bad.isEmpty with
      | true => exact absurd ((String.isEmpty_iff bad).mp hbe) hne
      | false => rfl
    simp [DatasetFactory, nameTruthy, hb, hbad]

/-- C9 witness. -/
theorem c9_witness :
    isUpperPascalCase "foo" = false
    ∧ datasetInit "foo" Option.none (.str "NOT_A_MODE") Option.none
        = .error (.valueErrorBadName "foo")
    ∧ DatasetFactory [] [] Context.BATCH Option.none Option.none
        (.mode Mode.READ) Option.none Option.none
      = (defaultPluginFactory [] [] Option.none Context.BATCH Option.none).map
          (fun r => { plugin := r.1, name := Option.none,
                      logicalKey := Option.none, mode := .mode Mode.READ,
                      options := r.2 })
    ∧ ("foo" : String) ≠ ""
    ∧ DatasetFactory [] [] Context.BATCH (some "foo") Option.none
        (.mode Mode.READ) Option.none Option.none
      = .error (.valueErrorBadName "foo") := by
  have h := c9_name_validation Option.none (.str "NOT_A_MODE") Option.none
    [] [] Context.BATCH Option.none Option.none "foo" (by decide)
  have h2 := c9_name_validation Option.none (.mode Mode.READ) Option.none
    [] [] Context.BATCH Option.none Option.none "foo" (by decide)
  exact ⟨by decide, h.1, h2.2.1, by decide, h2.2.2.2 (by decide)⟩

/-- C10: registry key asymmetry.  Registration stores the plugin under exactly
the options value passed (here an arbitrary key, class or instance);
resolution with a bare options instance looks the registry up by the
instance's class, so a registry binding only the instance itself misses even
for that very instance; the dict path looks the selected per-context value up
as-is, so the instance-keyed binding is found there. -/
theorem c10_registry_key_asymmetry
    (c ex : Context) (key : PKey) (f g : Plugin) (st : RegState)
    (o : OptionsInstance) (P : PluginMap) (D : DefaultMap)
    (hc : c.val ≠ 0)
    (hfresh : lookupP st.plugins key = Option.none)
    (hcls : lookupP P (.cls o.cls) = Option.none)
    (hinst : lookupP P (.inst o) = some g) :
    registerCall (.context c) (some key) false f st
      = ({ st with plugins := updateP st.plugins key f }, Option.none)
    ∧ defaultPluginFactory P D (some (.ctx c)) ex (some (.inst o))
        = .error (.valueErrorTypeNotRegistered o.cls (P.map Prod.fst))
    ∧ defaultPluginFactory P D (some (.ctx c)) ex
          (some (.dict [(c, .inst o)]))
        = .ok (g, some (.inst o)) := by
  have hgc : getContext (some (.ctx c)) ex = .ok c := by
    simp [getContext, ctxTruthy, hc]
  refine ⟨?_, ?_, ?_⟩
  · simp [registerCall, innerWrapper, hfresh]
  · simp [defaultPluginFactory, hgc, hcls]
  · simp [defaultPluginFactory, hgc, lookupCtxDict, hinst]

/-- C10 witness: a plugin registered under an options instance is invisible to
the bare-instance path and reachable through the dict path. -/
theorem c10_witness :
    (Context.BATCH.val ≠ 0)
    ∧ lookupP [] (.inst ⟨⟨3⟩, []⟩) = Option.none
    ∧ lookupP [(.inst ⟨⟨3⟩, []⟩, ⟨9⟩)] (.cls ⟨3⟩) = Option.none
    ∧ lookupP [(.inst ⟨⟨3⟩, []⟩, ⟨9⟩)] (.inst ⟨⟨3⟩, []⟩) = some ⟨9⟩
    ∧ registerCall (.context Context.BATCH) (some (.inst ⟨⟨3⟩, []⟩)) false ⟨9⟩
        { plugins := [], defaults := [] }
      = ({ plugins := updateP [] (.inst ⟨⟨3⟩, []⟩) ⟨9⟩, defaults := [] },
         Option.none)
    ∧ defaultPluginFactory [(.inst ⟨⟨3⟩, []⟩, ⟨9⟩)] [] (some (.ctx Context.BATCH))
        Context.BATCH (some (.inst ⟨⟨3⟩, []⟩))
      = .error (.valueErrorTypeNotRegistered ⟨3⟩ [.inst ⟨⟨3⟩, []⟩])
    ∧ defaultPluginFactory [(.inst ⟨⟨3⟩, []⟩, ⟨9⟩)] [] (some (.ctx Context.BATCH))
        Context.BATCH (some (.dict [(Context.BATCH, .inst ⟨⟨3⟩, []⟩)]))
      = .ok (⟨9⟩, some (.inst ⟨⟨3⟩, []⟩)) := by
  have h := c10_registry_key_asymmetry Context.BATCH Context.BATCH
    (.inst ⟨⟨3⟩, []⟩) ⟨9⟩ ⟨9⟩ { plugins := [], defaults := [] } ⟨⟨3⟩, []⟩
    [(.inst ⟨⟨3⟩, []⟩, ⟨9⟩)] [] (by decide) (by rfl) (by rfl) (by rfl)
  exact ⟨by decide, by rfl, by rfl, by rfl, h.1, h.2.1, h.2.2⟩

end Datasets
